import Mathlib

/-!
Verification of the cwop-sender packet encoder (src/conversions.py, src/cwop.py).

Modelling conventions, used throughout:
* Python numbers are `PyNum`: an `int` carries a `ℤ`, a `float` carries an exact
  rational.  The program only does field arithmetic, truncation, comparison and
  decimal printing on its floats, so rationals with finite decimal expansion
  reproduce the observable behaviour exactly on the inputs considered here.
* Python `str()` of a float is modelled as the exact decimal expansion of the
  rational (Python prints the shortest decimal that round-trips, which agrees
  with the exact expansion for finite-decimal values; the model caps the
  fraction at 17 digits, the maximum a Python float ever prints).
* The format spec f"{v:>0{w}}" right-aligns with fill character '0'; it is not
  sign-aware, so the fill lands before a minus sign.  `padZeroLeft` models it.
* `None` is `Option.none`; Python truthiness of a number is "nonzero".
-/

set_option maxRecDepth 4096

/- Batteries marks the rational-number operations irreducible, which stops
`decide` from evaluating the executable model on concrete inputs; restore the
default reducibility (the kernel's defeq checking is unaffected either way). -/
set_option allowUnsafeReducibility true in
attribute [semireducible] Rat.add Rat.mul Rat.sub Rat.inv Rat.ofScientific

namespace CwopSender

/-- A Python number: an `int` or a `float` (modelled as an exact rational). -/
inductive PyNum where
  | int (i : ℤ)
  | float (q : ℚ)
deriving DecidableEq

/-- Numeric value of a Python number. -/
def PyNum.toQ : PyNum → ℚ
  | .int i => (i : ℚ)
  | .float q => q

/-- Python int(x): identity on ints, truncation toward zero on floats. -/
def PyNum.trunc : PyNum → ℤ
  | .int i => i
  | .float q => if 0 ≤ q then ⌊q⌋ else ⌈q⌉

/-- Python truthiness of a number: zero (of either kind) is falsy. -/
def PyNum.truthy (x : PyNum) : Bool := x.toQ ≠ 0

/-- Python a % b (floored modulus; int % int is an int, otherwise a float).
The program only uses it with the positive constant 100. -/
def PyNum.mod : PyNum → PyNum → PyNum
  | .int a, .int b => .int (Int.emod a b)
  | a, b => .float (a.toQ - b.toQ * ⌊a.toQ / b.toQ⌋)

/-- Python a - b (int - int is an int, otherwise a float). -/
def PyNum.sub : PyNum → PyNum → PyNum
  | .int a, .int b => .int (a - b)
  | a, b => .float (a.toQ - b.toQ)

/-- Python a < b on numbers. -/
def PyNum.lt (a b : PyNum) : Bool := a.toQ < b.toQ

/-- Fuel-driven helper for `natToDigits` (structural recursion so the kernel
can evaluate it; the fuel never runs out since n + 1 > log10 n). -/
def natToDigitsAux : ℕ → ℕ → List Char
  | 0, _ => []
  | fuel + 1, n =>
    if n < 10 then [Nat.digitChar n]
    else natToDigitsAux fuel (n / 10) ++ [Nat.digitChar (n % 10)]

/-- Decimal digit characters of a natural number, most significant first
(exactly the digits Python prints for a non-negative int). -/
def natToDigits (n : ℕ) : List Char := natToDigitsAux (n + 1) n

/-- Digit characters of a Python int, a minus sign first when negative. -/
def intToDigits (i : ℤ) : List Char :=
  if i < 0 then '-' :: natToDigits i.natAbs else natToDigits i.natAbs

/-- Value of a list of decimal digit characters. -/
def digitsToNat (l : List Char) : ℕ :=
  l.foldl (fun a c => 10 * a + (c.toNat - 48)) 0

/-- Decimal fraction digits of a rational in [0, 1), capped at `fuel` digits. -/
def fracDigits : ℕ → ℚ → List Char
  | 0, _ => []
  | fuel + 1, q =>
    if q = 0 then []
    else Nat.digitChar (⌊q * 10⌋).toNat :: fracDigits fuel (q * 10 - ⌊q * 10⌋)

/-- Python str() of a float: sign, integer part, '.', fraction digits (a lone
'0' when the fraction is empty, as in str(12.0) = "12.0"). -/
def floatToDigits (q : ℚ) : List Char :=
  let ip := natToDigits ⌊|q|⌋.toNat
  let fr := fracDigits 17 (|q| - ⌊|q|⌋)
  (if q < 0 then ['-'] else []) ++ ip ++ '.' :: (if fr.isEmpty then ['0'] else fr)

/-- Characters of Python str() of a number. -/
def PyNum.strData : PyNum → List Char
  | .int i => intToDigits i
  | .float q => floatToDigits q

/-- Python str() of a number, as a string. -/
def PyNum.str (x : PyNum) : String := ⟨x.strData⟩

/-- Python float(s) on sliced numeric strings such as "12.", "0.3", "-0.". -/
def pyFloatOfData (l : List Char) : ℚ :=
  let neg := l.head? = some '-'
  let l2 := if neg then l.drop 1 else l
  let ip := l2.takeWhile (fun c => c ≠ '.')
  let fp := (l2.dropWhile (fun c => c ≠ '.')).drop 1
  let v : ℚ := (digitsToNat ip : ℚ) + (digitsToNat fp : ℚ) / (10 : ℚ) ^ fp.length
  if neg then -v else v

/-- Python int(s) on sliced integer strings such as "12", "-1". -/
def pyIntOfData (l : List Char) : ℤ :=
  let neg := l.head? = some '-'
  let l2 := if neg then l.drop 1 else l
  let v : ℤ := digitsToNat l2
  if neg then -v else v

/-- Python s[:n] slicing, including a negative n (counting from the end). -/
def pySliceTo (l : List Char) (n : ℤ) : List Char :=
  if 0 ≤ n then l.take n.toNat else l.take (l.length - (-n).toNat)

/-- Lean model of the Python format spec ">0w": right-align to width `w` with
fill '0'.  The fill is not sign-aware, so it lands before a minus sign. -/
def padZeroLeft (l : List Char) (w : ℕ) : List Char :=
  List.replicate (w - l.length) '0' ++ l

/-- src/conversions.py number_to_max_length_int: truncate to an int; reject a
negative value unless `negative`; with a positive `max_length`, reject when the
absolute value needs more decimal digits than the budget (reduced by one for
the sign when the value is negative). -/
def number_to_max_length_int (input : Option PyNum) (max_length : ℤ)
    (negative : Bool) : Option ℤ :=
  match input with
  | none => none
  | some x =>
    let i := x.trunc
    if i < 0 ∧ negative = false then none
    else if 0 < max_length then
      let m := if i < 0 then max_length - 1 else max_length
      if (10 : ℤ) ^ m.toNat ≤ |i| then none else some i
    else some i

/-- src/conversions.py celsius_to_fahrenheit. -/
def celsius_to_fahrenheit (c : ℚ) : ℚ := c * 9 / 5 + 32

/-- src/conversions.py kph_to_mph. -/
def kph_to_mph (kph : ℚ) : ℚ := kph / 1.609344

/-- src/conversions.py ms_to_kph. -/
def ms_to_kph (m : ℚ) : ℚ := m * 3.6

/-- src/conversions.py meters_to_feet. -/
def meters_to_feet (m : ℚ) : ℚ := m * 3.28084

/-- src/conversions.py mm_to_inch. -/
def mm_to_inch (mm : ℚ) : ℚ := mm / 25.4

/-- src/conversions.py lux_to_wm2. -/
def lux_to_wm2 (lux : ℚ) : ℚ := lux * 0.0079

/-- Round to the nearest integer, ties to even (the rounding Python float
formatting applies to an exactly representable tie). -/
def roundHalfEven (q : ℚ) : ℤ :=
  if q - ⌊q⌋ < 1 / 2 then ⌊q⌋
  else if 1 / 2 < q - ⌊q⌋ then ⌊q⌋ + 1
  else if 2 ∣ ⌊q⌋ then ⌊q⌋ else ⌊q⌋ + 1

/-- Python f"{x:.2f}": the value rounded to two decimals, rendered with a sign,
an unpadded integer part and exactly two fraction digits. -/
def formatF2 (q : ℚ) : List Char :=
  let n := roundHalfEven (q * 100)
  (if q < 0 then ['-'] else [])
    ++ natToDigits (n.natAbs / 100) ++ '.' :: padZeroLeft (natToDigits (n.natAbs % 100)) 2

/-- src/conversions.py Coordinate. -/
inductive Coordinate where
  | LATITUDE
  | LONGITUDE
deriving DecidableEq

/-- src/conversions.py coordinates_loran.  degrees = abs(int(coord)) is
truncation toward zero then absolute value; decimals = abs(coord) % 1 is the
fractional part; only the longitude degrees are zero-padded (to 3).  The
invalid-type raise is unrepresentable: `Coordinate` has only the two valid
constructors. -/
def coordinates_loran (ty : Coordinate) (coord : ℚ) : String :=
  let decimals : ℚ := |coord| - ⌊|coord|⌋
  let degrees : ℕ := (if 0 ≤ coord then ⌊coord⌋ else ⌈coord⌉).natAbs
  let minutes := formatF2 (decimals * 60)
  match ty with
  | .LATITUDE => ⟨natToDigits degrees ++ minutes ++ [if 0 < coord then 'N' else 'S']⟩
  | .LONGITUDE => ⟨padZeroLeft (natToDigits degrees) 3 ++ minutes ++ [if 0 < coord then 'E' else 'W']⟩

/-- src/conversions.py latitude_loran (the isinstance guard is encoded in the
type of `coord`). -/
def latitude_loran (coord : ℚ) : String := coordinates_loran Coordinate.LATITUDE coord

/-- src/conversions.py longitude_loran (the isinstance guard is encoded in the
type of `coord`). -/
def longitude_loran (coord : ℚ) : String := coordinates_loran Coordinate.LONGITUDE coord

/-- src/cwop.py CWOPValue: the stored state of one encoded field.  `intValue`
is a PyNum because the use_float branch of the constructor can replace the
bounded int by a float.  The stored prefix is named `pfx` (the Python name is
unavailable in Lean). -/
structure CWOPValue where
  value : Option PyNum
  maxDigits : ℤ
  converted : Option PyNum
  intValue : Option PyNum
  pfx : String
deriving DecidableEq

/-- src/cwop.py CWOPValue.__init__.  Converters may return None (the pressure
converter does), hence `PyNum → Option PyNum`.  The use_float branch follows
the source condition
use_float and converted and (int_value and abs(int_value) < 10**max_digits
or converted < 1)
with Python truthiness, then replaces int_value by the reparsed value of
str(converted)[:max_digits]. -/
def CWOPValue.make (value : Option PyNum) (converter : Option (PyNum → Option PyNum))
    (max_digits : ℤ) (negative : Bool) (use_float : Bool) (pfxArg : String) : CWOPValue :=
  let converted : Option PyNum :=
    match converter, value with
    | some f, some v => f v
    | _, _ => value
  let intValue0 : Option ℤ := number_to_max_length_int converted max_digits negative
  let floatCond : Bool :=
    use_float &&
      match converted with
      | none => false
      | some cv =>
        cv.truthy &&
          ((match intValue0 with
            | some i => decide (i ≠ 0) && decide (|(i : ℚ)| < (10 : ℚ) ^ max_digits)
            | none => false)
           || decide (cv.toQ < 1))
  let intValue : Option PyNum :=
    if floatCond then
      match converted with
      | some cv =>
        let cut := pySliceTo cv.strData max_digits
        some (if cut.contains '.' then PyNum.float (pyFloatOfData cut)
              else PyNum.int (pyIntOfData cut))
      | none => intValue0.map PyNum.int
    else intValue0.map PyNum.int
  { value := value
    maxDigits := max_digits
    converted := converted
    intValue := intValue
    pfx := if pfxArg.length = 1 then pfxArg else "" }

/-- src/cwop.py CWOPValue.__bool__: the int value is not None. -/
def CWOPValue.truthy (v : CWOPValue) : Bool := v.intValue.isSome

/-- src/cwop.py CWOPValue.__str__: no width gives prefix+value or "";
otherwise filler dots when absent, else the value right-aligned in the width
with '0' fill (the format spec ">0w"). -/
def CWOPValue.toStr (v : CWOPValue) : String :=
  if v.maxDigits ≤ 0 then
    match v.intValue with
    | some n => ⟨v.pfx.data ++ n.strData⟩
    | none => ""
  else
    match v.intValue with
    | none => ⟨v.pfx.data ++ List.replicate v.maxDigits.toNat '.'⟩
    | some n => ⟨v.pfx.data ++ padZeroLeft n.strData v.maxDigits.toNat⟩

/-- A datetime, reduced to the UTC day/hour/minute the packet prints.
astimezone(utc) is the identity in this model, and Python datetimes are always
truthy. -/
structure PyDateTime where
  day : ℕ
  hour : ℕ
  minute : ℕ
deriving DecidableEq

/-- Python f"{ts:%d%H%M}": day, hour, minute, each zero-padded to 2 digits. -/
def PyDateTime.fmtDDHHMM (t : PyDateTime) : String :=
  ⟨padZeroLeft (natToDigits t.day) 2 ++ padZeroLeft (natToDigits t.hour) 2
    ++ padZeroLeft (natToDigits t.minute) 2⟩

/-- src/cwop.py CWOPReport.  `altitude` holds the float CWOP.__init__ stored
(or None), and `illuminance` is None or a CWOPValue, exactly as
prepare_report builds them. -/
structure CWOPReport where
  designator : String
  timestamp : Option PyDateTime
  latitude : String
  longitude : String
  altitude : Option PyNum
  temperature : CWOPValue
  humidity : CWOPValue
  pressure : CWOPValue
  wind : CWOPValue
  wind_dir : CWOPValue
  wind_gust : CWOPValue
  rain_1h : CWOPValue
  rain_24h : CWOPValue
  rain_day : CWOPValue
  illuminance : Option CWOPValue
  snow_24h : CWOPValue
  comment : Option String
deriving DecidableEq

/-- Python truthiness of an optional number. -/
def optNumTruthy : Option PyNum → Bool
  | some x => x.truthy
  | none => false

/-- src/cwop.py CWOPReport.to_cwop_packet (use_aprs_messaging is the constant
True, so the type characters are '@' and '='). -/
def CWOPReport.to_cwop_packet (r : CWOPReport) : String :=
  let packet := r.designator ++ ">APRS,TCPIP*:"
  let packet :=
    match r.timestamp with
    | some t => packet ++ "@" ++ (t.fmtDDHHMM ++ "z")
    | none => packet ++ "="
  let packet := packet ++ (r.latitude ++ "/" ++ r.longitude)
  let packet := packet
    ++ (r.wind_dir.toStr ++ r.wind.toStr ++ r.wind_gust.toStr ++ r.temperature.toStr)
  let packet := if r.rain_1h.truthy then packet ++ r.rain_1h.toStr else packet
  let packet := packet
    ++ (r.rain_24h.toStr ++ r.rain_day.toStr ++ r.humidity.toStr ++ r.pressure.toStr)
  let packet :=
    match r.illuminance with
    | some v => if v.truthy then packet ++ v.toStr else packet
    | none => packet
  let packet := if r.snow_24h.truthy then packet ++ r.snow_24h.toStr else packet
  let comment_data : List String :=
    (if optNumTruthy r.altitude then ["/A=" ++ (r.altitude.getD (.int 0)).str] else [])
      ++ (match r.comment with
          | some c => if c ≠ "" then [c] else []
          | none => [])
      ++ ["- cwop-sender.py"]
  packet ++ String.intercalate " " comment_data

/-- src/cwop.py CWOP: the station state the claims need (the transport
configuration server/port/passcode is out of scope). -/
structure CWOP where
  designator : String
  latitude : String
  longitude : String
  altitude : Option PyNum
deriving DecidableEq

/-- src/cwop.py CWOP.__init__: positions are LORAN-rendered at once;
altitude is converted to feet only when truthy (so 0 is stored as None). -/
def CWOP.make (designator : String) (latitude longitude : ℚ)
    (altitude : Option PyNum) : CWOP :=
  { designator := designator
    latitude := latitude_loran latitude
    longitude := longitude_loran longitude
    altitude :=
      match altitude with
      | some a => if a.truthy then some (.float (meters_to_feet a.toQ)) else none
      | none => none }

/-- Python str.replace with a single-character pattern, as the comment
sanitization uses it: a characterwise rewrite. -/
def pyReplaceChar (s : String) (a b : Char) : String :=
  ⟨s.data.map fun c => if c = a then b else c⟩

/-- The comment sanitization of src/cwop.py prepare_report (lines 181-185):
rewrite '~' to '-' when present, then '|' to '/' when present (Python
single-character "in" is character membership). -/
def sanitizeComment (c : String) : String :=
  let c1 := if '~' ∈ c.data then pyReplaceChar c '~' '-' else c
  if '|' ∈ c1.data then pyReplaceChar c1 '|' '/' else c1

/-- src/cwop.py CWOP.prepare_report.  `now` stands for datetime.utcnow().
`timestamp` models the keyword argument as the only caller (cwop-sender.py)
passes it: an optional datetime, None when the user supplied none. -/
def CWOP.prepare_report (st : CWOP) (timestamp : Option PyDateTime) (now : PyDateTime)
    (wind wind_dir gust temperature humidity pressure rain_1h rain_24h rain_day snow_24h
      illuminance : Option PyNum)
    (comment : Option String) : CWOPReport :=
  let ts : PyDateTime := match timestamp with | some t => t | none => now
  let comment : Option String :=
    match comment with
    | some c => some (if c ≠ "" then sanitizeComment c else c)
    | none => none
  { designator := st.designator
    timestamp := some ts
    latitude := st.latitude
    longitude := st.longitude
    altitude := st.altitude
    temperature := CWOPValue.make temperature
      (some fun c => some (.float (celsius_to_fahrenheit c.toQ))) 3 true false "t"
    humidity := CWOPValue.make humidity
      (some fun h => some (.int (PyNum.mod h (.int 100)).trunc)) 2 false false "h"
    pressure := CWOPValue.make pressure
      (some fun p => (number_to_max_length_int (some (.float (p.toQ / 10))) 0 false).map PyNum.int)
      5 false false "b"
    wind := CWOPValue.make wind
      (some fun w => some (.float (kph_to_mph (ms_to_kph w.toQ)))) 3 false false "/"
    wind_dir := CWOPValue.make wind_dir none 3 false false "_"
    wind_gust := CWOPValue.make gust
      (some fun w => some (.float (kph_to_mph (ms_to_kph w.toQ)))) 3 false false "g"
    rain_1h := CWOPValue.make rain_1h
      (some fun r => some (.float (100 * mm_to_inch r.toQ))) 3 false false "r"
    rain_24h := CWOPValue.make rain_24h
      (some fun r => some (.float (100 * mm_to_inch r.toQ))) 3 false false "p"
    rain_day := CWOPValue.make rain_day
      (some fun r => some (.float (100 * mm_to_inch r.toQ))) 3 false false "P"
    snow_24h := CWOPValue.make snow_24h
      (some fun r => some (.float (mm_to_inch r.toQ))) 3 false true "s"
    illuminance :=
      match illuminance with
      | some x =>
        if x.truthy then
          some (CWOPValue.make
            (some (if x.lt (.int 1000) then x else x.sub (.int 1000)))
            none 3 false false (if x.lt (.int 1000) then "L" else "l"))
        else none
      | none => none
    comment := comment }

/-! Helper lemmas about strings and digit lists. -/

theorem strExt {a b : String} (h : a.data = b.data) : a = b := by
  cases a; cases b
  exact congrArg String.mk h

theorem strData_append (a b : String) : (a ++ b).data = a.data ++ b.data := rfl

theorem mkLength (l : List Char) : (String.mk l).length = l.length := rfl

theorem strAppend_assoc (a b c : String) : a ++ b ++ c = a ++ (b ++ c) := by
  apply strExt
  simp [strData_append]

theorem padZeroLeft_length (l : List Char) (w : ℕ) :
    (padZeroLeft l w).length = max w l.length := by
  simp [padZeroLeft]
  omega

theorem natToDigitsAux_length_le {fuel n k : ℕ} (hk : 0 < k) (h : n < 10 ^ k) :
    (natToDigitsAux fuel n).length ≤ k := by
  induction fuel generalizing n k with
  | zero => simp [natToDigitsAux]
  | succ fuel ih =>
    rw [natToDigitsAux]
    split
    · simpa using hk
    · rename_i hn
      have hk1 : 1 < k := by
        by_contra hle
        have hk1' : k = 1 := by omega
        subst hk1'
        simp at h
        omega
      have hdiv : n / 10 < 10 ^ (k - 1) := by
        apply Nat.div_lt_of_lt_mul
        have hk' : k - 1 + 1 = k := by omega
        have hpow : 10 ^ k = 10 * 10 ^ (k - 1) := by
          conv_lhs => rw [← hk']
          rw [pow_succ, Nat.mul_comm]
        rw [← hpow]
        exact h
      have := ih (by omega : 0 < k - 1) hdiv
      simp only [List.length_append, List.length_cons, List.length_nil]
      omega

theorem natToDigits_length_le {n k : ℕ} (hk : 0 < k) (h : n < 10 ^ k) :
    (natToDigits n).length ≤ k :=
  natToDigitsAux_length_le hk h

theorem intToDigits_length_le {i : ℤ} {w : ℤ} (hw : 0 < w)
    (hpos : 0 ≤ i → |i| < (10 : ℤ) ^ w.toNat)
    (hneg : i < 0 → |i| < (10 : ℤ) ^ (w - 1).toNat) :
    (intToDigits i).length ≤ w.toNat := by
  rcases lt_or_le i 0 with hi | hi
  · have hb := hneg hi
    have habs : (i.natAbs : ℤ) < (10 : ℤ) ^ (w - 1).toNat := by
      rwa [Int.abs_eq_natAbs] at hb
    rcases Nat.eq_zero_or_pos (w - 1).toNat with h0 | h0
    · exfalso
      rw [h0, pow_zero] at habs
      omega
    · have hnat : i.natAbs < 10 ^ (w - 1).toNat := by exact_mod_cast habs
      have hlen := natToDigits_length_le h0 hnat
      rw [intToDigits, if_pos hi]
      simp only [List.length_cons]
      omega
  · have hb := hpos hi
    have habs : (i.natAbs : ℤ) < (10 : ℤ) ^ w.toNat := by
      rwa [Int.abs_eq_natAbs] at hb
    have hnat : i.natAbs < 10 ^ w.toNat := by exact_mod_cast habs
    rw [intToDigits, if_neg (by omega)]
    exact natToDigits_length_le (by omega) hnat

theorem number_to_max_length_int_some_bound {o : Option PyNum} {n : ℤ} {neg : Bool}
    {i : ℤ} (hn : 0 < n) (h : number_to_max_length_int o n neg = some i) :
    (0 ≤ i → |i| < (10 : ℤ) ^ n.toNat) ∧ (i < 0 → |i| < (10 : ℤ) ^ (n - 1).toNat) := by
  match o with
  | none => simp [number_to_max_length_int] at h
  | some x =>
    simp only [number_to_max_length_int] at h
    by_cases hneg : x.trunc < 0 ∧ neg = false
    · rw [if_pos hneg] at h
      cases h
    · rw [if_neg hneg, if_pos hn] at h
      by_cases hbig : (10 : ℤ) ^ (if x.trunc < 0 then n - 1 else n).toNat ≤ |x.trunc|
      · rw [if_pos hbig] at h
        cases h
      · rw [if_neg hbig] at h
        cases h
        constructor
        · intro hi
          rw [if_neg (by omega)] at hbig
          omega
        · intro hi
          rw [if_pos hi] at hbig
          omega

/-- C1 (amended): with use_float disabled, an encoded field of positive width
w renders to exactly pfx.length + w characters, for every raw value,
conversion, and sign setting: filler dots when the bounded int is absent,
zero-padded digits when present.  (As claimed C1 also covers use_float=true,
where the invariant fails: see the counterexample.) -/
theorem C1_render_width (value : Option PyNum) (conv : Option (PyNum → Option PyNum))
    (w : ℕ) (negative : Bool) (p : String) :
    ((CWOPValue.make value conv ((w : ℤ) + 1) negative false p).toStr).length
      = ((CWOPValue.make value conv ((w : ℤ) + 1) negative false p).pfx).length + (w + 1) := by
  have hex : ∃ cm : Option PyNum,
      (CWOPValue.make value conv ((w : ℤ) + 1) negative false p).intValue
        = (number_to_max_length_int cm ((w : ℤ) + 1) negative).map PyNum.int := by
    cases conv with
    | none => exact ⟨value, rfl⟩
    | some f =>
      cases value with
      | none => exact ⟨none, rfl⟩
      | some v => exact ⟨f v, rfl⟩
  obtain ⟨cm, hiv⟩ := hex
  set V := CWOPValue.make value conv ((w : ℤ) + 1) negative false p with hV
  have hmd : V.maxDigits = (w : ℤ) + 1 := rfl
  have hnotle : ¬ V.maxDigits ≤ 0 := by rw [hmd]; omega
  have htn : ((w : ℤ) + 1).toNat = w + 1 := by omega
  cases h0 : number_to_max_length_int cm ((w : ℤ) + 1) negative with
  | none =>
    have hiv' : V.intValue = none := by rw [hiv, h0]; rfl
    rw [CWOPValue.toStr, if_neg hnotle, hiv']
    simp [mkLength, hmd, htn]
  | some i =>
    have hiv' : V.intValue = some (.int i) := by rw [hiv, h0]; rfl
    rw [CWOPValue.toStr, if_neg hnotle, hiv']
    have hb := number_to_max_length_int_some_bound (by omega : (0:ℤ) < (w : ℤ) + 1) h0
    have hlen : (intToDigits i).length ≤ ((w : ℤ) + 1).toNat :=
      intToDigits_length_le (by omega) hb.1 hb.2
    show (V.pfx.data ++ padZeroLeft (PyNum.strData (.int i)) ((w : ℤ) + 1).toNat).length
      = V.pfx.length + (w + 1)
    have hsd : PyNum.strData (.int i) = intToDigits i := rfl
    rw [hsd]
    simp only [List.length_append]
    have hpl : V.pfx.length = V.pfx.data.length := rfl
    have := padZeroLeft_length (intToDigits i) ((w : ℤ) + 1).toNat
    omega

/-- C1 (counterexample): with use_float=true a field of width 3 can render to
five characters, not len(pfx) + 3 = 4: the converted value 12.7 is cut to
"12.", reparsed as the float 12.0, and printed as "12.0". -/
theorem C1_counterexample :
    ((CWOPValue.make (some (.float (127 / 10))) none 3 false true "s").toStr = "s12.0")
    ∧ ((CWOPValue.make (some (.float (127 / 10))) none 3 false true "s").toStr).length ≠ 1 + 3 := by
  constructor
  · decide
  · decide

/-- C3 (amended): for every number v and positive digit budget n = m + 1,
bounded_int with allow_negative=False is absent exactly when the truncation of
v toward zero is negative or needs more than n digits (so a negative v in
(-1, 0) truncates to 0 and is returned, not rejected); with
allow_negative=True it is absent exactly when the truncated value is negative
and needs more than n - 1 digits, or is non-negative and needs more than n
digits; a null input returns absent rather than raising. -/
theorem C3_bounded_int_characterization (x : PyNum) (m : ℕ) :
    (number_to_max_length_int (some x) ((m : ℤ) + 1) false
      = if x.trunc < 0 ∨ (10 : ℤ) ^ (m + 1) ≤ |x.trunc| then none else some x.trunc)
    ∧ (number_to_max_length_int (some x) ((m : ℤ) + 1) true
      = if (x.trunc < 0 ∧ (10 : ℤ) ^ m ≤ |x.trunc|)
            ∨ (0 ≤ x.trunc ∧ (10 : ℤ) ^ (m + 1) ≤ |x.trunc|) then none else some x.trunc)
    ∧ number_to_max_length_int none ((m : ℤ) + 1) false = none := by
  have htn : ((m : ℤ) + 1).toNat = m + 1 := by omega
  have htm : ((m : ℤ) + 1 - 1).toNat = m := by omega
  refine ⟨?_, ?_, rfl⟩
  · simp only [number_to_max_length_int]
    split_ifs with h1 h2 h3 h4 <;> simp_all <;> omega
  · simp only [number_to_max_length_int]
    split_ifs with h1 h2 h3 h4 <;> simp_all <;> omega

/-- C3 (counterexample): the claim's "absent exactly when abs(v) needs more
than n-1 digits" fails for non-negative values, which get the full n-digit
budget: 999 needs 3 > n-1 = 2 digits yet is accepted at n = 3; and the
claim's "absent for any negative v" fails for -0.5, which truncates to 0 and
is returned even with allow_negative=False. -/
theorem C3_counterexample :
    (number_to_max_length_int (some (.int 999)) 3 true = some 999)
    ∧ ((10 : ℤ) ^ 2 ≤ |(999 : ℤ)|)
    ∧ (number_to_max_length_int (some (.float (-1 / 2))) 3 false = some 0)
    ∧ ((-1 / 2 : ℚ) < 0) := by
  refine ⟨by decide, by decide, by decide, by decide⟩

/-- C4 (amended): a present negative digit value at positive width renders as
the prefix, then the zero fill, then the sign and magnitude digits: the format
spec ">0w" right-aligns with '0' fill and is not sign-aware, so -4 at width 3
renders as "0-4" after the prefix, not "-04".  The full width
pfx.length + max_digits is still occupied. -/
theorem C4_negative_render (i w : ℤ) (p : String) (hi : i < 0) (hw : 0 < w)
    (hfit : |i| < (10 : ℤ) ^ (w - 1).toNat) :
    ((CWOPValue.make (some (.int i)) none w true false p).toStr
      = ⟨(if p.length = 1 then p else "").data
          ++ List.replicate (w.toNat - ((natToDigits i.natAbs).length + 1)) '0'
          ++ '-' :: natToDigits i.natAbs⟩)
    ∧ ((CWOPValue.make (some (.int i)) none w true false p).toStr).length
        = (if p.length = 1 then p else "").length + w.toNat := by
  set V := CWOPValue.make (some (.int i)) none w true false p with hV
  have h0 : number_to_max_length_int (some (.int i)) w true = some i := by
    simp only [number_to_max_length_int, PyNum.trunc]
    rw [if_neg (by simp), if_pos hw, if_pos hi, if_neg (by omega)]
  have hiv : V.intValue = some (.int i) := by
    show (number_to_max_length_int (some (.int i)) w true).map PyNum.int = some (.int i)
    rw [h0]
    rfl
  have hpfx : V.pfx = if p.length = 1 then p else "" := rfl
  have hmd : V.maxDigits = w := rfl
  have hstr : V.toStr = ⟨V.pfx.data ++ padZeroLeft (intToDigits i) w.toNat⟩ := by
    rw [CWOPValue.toStr, if_neg (by rw [hmd]; omega), hiv]
    rfl
  have hdig : intToDigits i = '-' :: natToDigits i.natAbs := by
    rw [intToDigits, if_pos hi]
  have hlen : (intToDigits i).length ≤ w.toNat :=
    intToDigits_length_le hw (fun h => absurd h (by omega)) (fun _ => hfit)
  constructor
  · rw [hstr, hdig, hpfx]
    show String.mk _ = String.mk _
    congr 1
    rw [padZeroLeft]
    simp only [List.length_cons, List.append_assoc]
  · rw [hstr]
    rw [mkLength]
    simp only [List.length_append]
    have := padZeroLeft_length (intToDigits i) w.toNat
    rw [hpfx]
    have hpl : (if p.length = 1 then p else "").length
        = (if p.length = 1 then p else "").data.length := rfl
    omega

/-- C4 witness: the amended negative rendering rule applied at digit value
-4, width 3, prefix "t". -/
theorem C4_witness :
    ((CWOPValue.make (some (.int (-4))) none 3 true false "t").toStr
      = ⟨(if ("t" : String).length = 1 then ("t" : String) else "").data
          ++ List.replicate ((3 : ℤ).toNat - ((natToDigits (Int.natAbs (-4))).length + 1)) '0'
          ++ '-' :: natToDigits (Int.natAbs (-4))⟩)
    ∧ ((CWOPValue.make (some (.int (-4))) none 3 true false "t").toStr).length
        = (if ("t" : String).length = 1 then ("t" : String) else "").length + (3 : ℤ).toNat :=
  C4_negative_render (-4) 3 "t" (by decide) (by decide) (by decide)

/-- C4 (counterexample): the claimed rendering "-04, never 0-4" is falsified
at digit value -4, width 3, prefix "t": the field renders "t0-4". -/
theorem C4_counterexample :
    (CWOPValue.make (some (.int (-4))) none 3 true false "t").toStr = "t0-4"
    ∧ (CWOPValue.make (some (.int (-4))) none 3 true false "t").toStr ≠ "t-04" := by
  refine ⟨by decide, by decide⟩

/-- C5 (amended): LORAN rendering gives unpadded degree digits for latitude
(one digit for latitudes below 10 degrees) and three zero-padded degree digits
for longitude, followed by the minutes (|coord| mod 1)*60 formatted to two
decimals and the hemisphere letter chosen by the comparison 0 < coord; the
claimed round-trips loran(LATITUDE, 45.5) = "4530.00N" and
loran(LONGITUDE, -122.33) = "12219.80W" hold. -/
theorem C5_loran_format :
    (latitude_loran (91 / 2) = "4530.00N")
    ∧ (longitude_loran (-12233 / 100) = "12219.80W")
    ∧ (latitude_loran (11 / 2) = "530.00N")
    ∧ (longitude_loran (11 / 2) = "00530.00E")
    ∧ (∀ c : ℚ, ∃ pre : List Char,
        (latitude_loran c).data = pre ++ [if 0 < c then 'N' else 'S'])
    ∧ (∀ c : ℚ, ∃ pre : List Char,
        (longitude_loran c).data = pre ++ [if 0 < c then 'E' else 'W']) := by
  refine ⟨by decide, by decide, by decide, by decide, ?_, ?_⟩
  · intro c
    exact ⟨natToDigits ((if 0 ≤ c then ⌊c⌋ else ⌈c⌉).natAbs)
      ++ formatF2 ((|c| - ⌊|c|⌋) * 60), rfl⟩
  · intro c
    exact ⟨padZeroLeft (natToDigits ((if 0 ≤ c then ⌊c⌋ else ⌈c⌉).natAbs)) 3
      ++ formatF2 ((|c| - ⌊|c|⌋) * 60), rfl⟩

/-- C5 (counterexample): latitude degrees are not zero-padded to two digits:
latitude 5.5 renders "530.00N" (seven characters, a single degree digit), not
the "0530.00N" that two degree digits would give. -/
theorem C5_counterexample :
    latitude_loran (11 / 2) = "530.00N" ∧ latitude_loran (11 / 2) ≠ "0530.00N" := by
  refine ⟨by decide, by decide⟩

/-- C7: for every non-null humidity input h, the humidity field stores
int(h mod 100), a value in [0, 100), and renders as 'h' plus that value
zero-padded to two digits -- three characters in all; in particular humidity
100 encodes as "h00" and humidity 45.6 as "h45". -/
theorem C7_humidity_encoding (st : CWOP) (ts : Option PyDateTime) (now : PyDateTime)
    (w wd g t p r1 r24 rd s il : Option PyNum) (c : Option String) (x : PyNum) :
    ((st.prepare_report ts now w wd g t (some x) p r1 r24 rd s il c).humidity.intValue
        = some (.int (PyNum.mod x (.int 100)).trunc))
    ∧ (0 ≤ (PyNum.mod x (.int 100)).trunc ∧ (PyNum.mod x (.int 100)).trunc < 100)
    ∧ ((st.prepare_report ts now w wd g t (some x) p r1 r24 rd s il c).humidity.toStr
        = ⟨'h' :: padZeroLeft (natToDigits (PyNum.mod x (.int 100)).trunc.natAbs) 2⟩)
    ∧ (((st.prepare_report ts now w wd g t (some x) p r1 r24 rd s il c).humidity.toStr).length
        = 3)
    ∧ (((CWOP.make "N0CALL" (91 / 2) (-122) none).prepare_report none ⟨1, 2, 3⟩ none none
          none none (some (.int 100)) none none none none none none none).humidity.toStr
        = "h00")
    ∧ (((CWOP.make "N0CALL" (91 / 2) (-122) none).prepare_report none ⟨1, 2, 3⟩ none none
          none none (some (.float (456 / 10))) none none none none none none none).humidity.toStr
        = "h45") := by
  have hd : 0 ≤ (PyNum.mod x (.int 100)).trunc ∧ (PyNum.mod x (.int 100)).trunc < 100 := by
    cases x with
    | int i =>
      show 0 ≤ Int.emod i 100 ∧ Int.emod i 100 < 100
      exact ⟨Int.emod_nonneg i (by norm_num), Int.emod_lt_of_pos i (by norm_num)⟩
    | float q =>
      have hcast : (PyNum.int 100).toQ = (100 : ℚ) := by
        show ((100 : ℤ) : ℚ) = (100 : ℚ)
        norm_num
      have hmod : PyNum.mod (.float q) (.int 100)
          = .float (q - (PyNum.int 100).toQ * ⌊q / (PyNum.int 100).toQ⌋) := rfl
      rw [hmod]
      set e : ℚ := q - (PyNum.int 100).toQ * ⌊q / (PyNum.int 100).toQ⌋ with he
      have he0 : 0 ≤ e := by
        rw [he, hcast]
        have := Int.floor_le (q / 100)
        nlinarith
      have he1 : e < 100 := by
        rw [he, hcast]
        have := Int.lt_floor_add_one (q / 100)
        nlinarith
      have htr : (PyNum.float e).trunc = ⌊e⌋ := by
        rw [PyNum.trunc, if_pos he0]
      rw [htr]
      constructor
      · exact Int.floor_nonneg.mpr he0
      · exact Int.floor_lt.mpr (by exact_mod_cast he1)
  set d : ℤ := (PyNum.mod x (.int 100)).trunc with hdd
  have habs : |d| = d := abs_of_nonneg hd.1
  have h0 : number_to_max_length_int (some (.int d)) 2 false = some d := by
    show (if d < 0 ∧ false = false then none
      else if (0 : ℤ) < 2 then
        if (10 : ℤ) ^ ((if d < 0 then 2 - 1 else 2 : ℤ)).toNat ≤ |d| then none else some d
      else some d) = some d
    have hc1 : ¬ (d < 0 ∧ false = false) := fun hcon => absurd hcon.1 (by omega)
    have hc3 : ¬ ((10 : ℤ) ^ ((if d < 0 then 2 - 1 else 2 : ℤ)).toNat ≤ |d|) := by
      rw [if_neg (by omega : ¬ d < 0), habs]
      show ¬ ((10 : ℤ) ^ (2 : ℕ) ≤ d)
      norm_num
      omega
    rw [if_neg hc1, if_pos (by norm_num : (0:ℤ) < 2), if_neg hc3]
  have hiv : (st.prepare_report ts now w wd g t (some x) p r1 r24 rd s il c).humidity.intValue
      = some (.int d) := by
    show (number_to_max_length_int (some (.int d)) 2 false).map PyNum.int = some (.int d)
    rw [h0]
    rfl
  have hnabs : intToDigits d = natToDigits d.natAbs := by
    rw [intToDigits, if_neg (by omega)]
  have hlen2 : (natToDigits d.natAbs).length ≤ 2 := by
    apply natToDigits_length_le (by omega)
    have : (100 : ℕ) = 10 ^ 2 := by norm_num
    omega
  have hmd2 : (st.prepare_report ts now w wd g t (some x) p r1 r24 rd s il c).humidity.maxDigits
      = (2 : ℤ) := rfl
  have hstr : (st.prepare_report ts now w wd g t (some x) p r1 r24 rd s il c).humidity.toStr
      = ⟨'h' :: padZeroLeft (natToDigits d.natAbs) 2⟩ := by
    rw [CWOPValue.toStr, if_neg (by rw [hmd2]; norm_num), hiv, ← hnabs]
    rfl
  refine ⟨hiv, hd, hstr, ?_, by decide, by decide⟩
  rw [hstr, mkLength]
  simp only [List.length_cons]
  have := padZeroLeft_length (natToDigits d.natAbs) 2
  omega

/-- The characterwise rewrite the spec describes for comments: '~' becomes
'-', '|' becomes '/', everything else is unchanged. -/
def commentRewrite (ch : Char) : Char :=
  if ch = '~' then '-' else if ch = '|' then '/' else ch

theorem sanitizeComment_data (c : String) :
    (sanitizeComment c).data = c.data.map commentRewrite := by
  rcases c with ⟨l⟩
  show (sanitizeComment ⟨l⟩).data = l.map commentRewrite
  have hpoint : ∀ a : Char,
      (fun ch => if ch = '|' then '/' else ch) ((fun ch => if ch = '~' then '-' else ch) a)
        = commentRewrite a := by
    intro a
    by_cases ha : a = '~'
    · subst ha; decide
    · by_cases hb : a = '|'
      · subst hb; decide
      · simp [commentRewrite, ha, hb]
  unfold sanitizeComment
  by_cases h1 : '~' ∈ (String.mk l).data
  · rw [if_pos h1]
    by_cases h2 : '|' ∈ (pyReplaceChar ⟨l⟩ '~' '-').data
    · rw [if_pos h2]
      show (l.map _).map _ = l.map commentRewrite
      rw [List.map_map]
      exact List.map_congr_left fun a _ => hpoint a
    · rw [if_neg h2]
      show l.map _ = l.map commentRewrite
      apply List.map_congr_left
      intro a hal
      by_cases ha : a = '~'
      · subst ha; decide
      · by_cases hb : a = '|'
        · exfalso
          apply h2
          show '|' ∈ l.map _
          refine List.mem_map.mpr ⟨a, hal, ?_⟩
          rw [if_neg ha, hb]
        · simp [commentRewrite, ha, hb]
  · rw [if_neg h1]
    by_cases h2 : '|' ∈ (String.mk l).data
    · rw [if_pos h2]
      show l.map _ = l.map commentRewrite
      apply List.map_congr_left
      intro a hal
      have ha : a ≠ '~' := fun he => h1 (he ▸ hal)
      by_cases hb : a = '|'
      · subst hb; decide
      · simp [commentRewrite, ha, hb]
    · rw [if_neg h2]
      show l = l.map commentRewrite
      conv_lhs => rw [← List.map_id l]
      apply List.map_congr_left
      intro a hal
      have ha : a ≠ '~' := fun he => h1 (he ▸ hal)
      have hb : a ≠ '|' := fun he => h2 (he ▸ hal)
      simp [commentRewrite, ha, hb]

/-- C9: sanitization rewrites every '~' to '-' and every '|' to '/': the
stored comment text is the characterwise rewrite of the input (all other
characters unchanged) and contains neither '~' nor '|'; prepare_report stores
exactly the sanitized comment. -/
theorem C9_comment_sanitization :
    (∀ c : String,
      (sanitizeComment c).data = c.data.map commentRewrite
      ∧ '~' ∉ (sanitizeComment c).data ∧ '|' ∉ (sanitizeComment c).data)
    ∧ (∀ (st : CWOP) (ts : Option PyDateTime) (now : PyDateTime)
        (w wd g t h p r1 r24 rd s il : Option PyNum) (c : String),
        (st.prepare_report ts now w wd g t h p r1 r24 rd s il (some c)).comment
          = some (sanitizeComment c)) := by
  constructor
  · intro c
    refine ⟨sanitizeComment_data c, ?_, ?_⟩
    · rw [sanitizeComment_data c]
      intro hmem
      obtain ⟨a, _, ha⟩ := List.mem_map.mp hmem
      by_cases h1 : a = '~' <;> by_cases h2 : a = '|' <;>
        simp [commentRewrite, h1, h2] at ha
    · rw [sanitizeComment_data c]
      intro hmem
      obtain ⟨a, _, ha⟩ := List.mem_map.mp hmem
      by_cases h1 : a = '~' <;> by_cases h2 : a = '|' <;>
        simp [commentRewrite, h1, h2] at ha
  · intro st ts now w wd g t h p r1 r24 rd s il c
    show some (if c ≠ "" then sanitizeComment c else c) = some (sanitizeComment c)
    by_cases hc : c = ""
    · subst hc
      rw [if_neg (by simp)]
      decide
    · rw [if_pos hc]

/-- C2 (amended): in an assembled packet the eight fields wind direction,
wind speed, gust, temperature, rain-24h, rain-day, humidity and pressure
always occupy their full width (filler dots when unreported), but rain-1h,
illuminance and snow are omitted entirely when unreported (they are
conditionally appended), as are the altitude and comment trailing tokens: a
report with no optional measurements renders as header, position, the eight
filler fields and the software suffix. -/
theorem C2_empty_report_packet (d la lo : String) (ts : Option PyDateTime)
    (now : PyDateTime) :
    (CWOP.prepare_report ⟨d, la, lo, none⟩ ts now none none none none none none
        none none none none none none).to_cwop_packet
      = d ++ ">APRS,TCPIP*:" ++ "@"
          ++ ((match ts with | some t => t | none => now).fmtDDHHMM ++ "z")
          ++ (la ++ "/" ++ lo)
          ++ "_.../...g...t..." ++ "p...P...h..b....." ++ "- cwop-sender.py" := by
  cases ts <;> rfl

/-- C2 (counterexample): the packet assembled from a report with no optional
measurements contains no rain-1h filler "r...", no illuminance field and no
snow filler "s...": those fields are dropped entirely rather than rendered at
full width, so the claim that no fixed-width weather field is ever omitted
structurally is false. -/
theorem C2_counterexample :
    (((CWOP.make "X" (91 / 2) (-12233 / 100) none).prepare_report none ⟨1, 2, 3⟩ none none
        none none none none none none none none none none).to_cwop_packet
      = "X>APRS,TCPIP*:@010203z4530.00N/12219.80W_.../...g...t...p...P...h..b.....- cwop-sender.py")
    ∧ ¬ ("r...".data
        <:+: "X>APRS,TCPIP*:@010203z4530.00N/12219.80W_.../...g...t...p...P...h..b.....- cwop-sender.py".data)
    ∧ ¬ ("L".data
        <:+: "X>APRS,TCPIP*:@010203z4530.00N/12219.80W_.../...g...t...p...P...h..b.....- cwop-sender.py".data)
    ∧ ¬ ("s...".data
        <:+: "X>APRS,TCPIP*:@010203z4530.00N/12219.80W_.../...g...t...p...P...h..b.....- cwop-sender.py".data) := by
  refine ⟨by decide, by decide, by decide, by decide⟩

theorem strPrefix_extend {l : List Char} (a x : String) (h : l <+: a.data) :
    l <+: (a ++ x).data := by
  rw [strData_append]
  exact h.trans (List.prefix_append _ _)

theorem packet_header_shape (r : CWOPReport) :
    ∃ rest : String,
      r.to_cwop_packet
        = (match r.timestamp with
            | some t => r.designator ++ ">APRS,TCPIP*:" ++ "@" ++ (t.fmtDDHHMM ++ "z")
            | none => r.designator ++ ">APRS,TCPIP*:" ++ "=") ++ rest := by
  have hpre : (match r.timestamp with
      | some t => r.designator ++ ">APRS,TCPIP*:" ++ "@" ++ (t.fmtDDHHMM ++ "z")
      | none => r.designator ++ ">APRS,TCPIP*:" ++ "=").data <+: r.to_cwop_packet.data := by
    rcases hr : r.timestamp with _ | t <;>
      · simp only [CWOPReport.to_cwop_packet, hr]
        repeat first
          | exact List.prefix_rfl
          | apply strPrefix_extend
          | split
  obtain ⟨tl, htl⟩ := hpre
  refine ⟨⟨tl⟩, strExt ?_⟩
  rw [strData_append]
  exact htl.symm

/-- C8: every assembled packet begins with designator + ">APRS,TCPIP*:"
followed by '@' + ddHHMM + 'z' when the report carries a timestamp and by '='
when it does not; and prepare_report always stores a timestamp -- the
supplied one (taken to UTC) or the current UTC time when none is supplied --
so every report it builds carries one. -/
theorem C8_packet_header (st : CWOP) (ts : Option PyDateTime) (now : PyDateTime)
    (w wd g t h p r1 r24 rd s il : Option PyNum) (c : Option String) :
    ((st.prepare_report ts now w wd g t h p r1 r24 rd s il c).timestamp
      = some (match ts with | some u => u | none => now))
    ∧ (∃ rest : String,
        (st.prepare_report ts now w wd g t h p r1 r24 rd s il c).to_cwop_packet
          = st.designator ++ ">APRS,TCPIP*:" ++ "@"
            ++ ((match ts with | some u => u | none => now).fmtDDHHMM ++ "z") ++ rest)
    ∧ (∀ r : CWOPReport, ∃ rest : String,
        CWOPReport.to_cwop_packet { r with timestamp := none }
          = r.designator ++ ">APRS,TCPIP*:" ++ "=" ++ rest) := by
  refine ⟨rfl, ?_, ?_⟩
  · obtain ⟨rest, hrest⟩ :=
      packet_header_shape (st.prepare_report ts now w wd g t h p r1 r24 rd s il c)
    cases ts with
    | none => exact ⟨rest, hrest⟩
    | some u => exact ⟨rest, hrest⟩
  · intro r
    obtain ⟨rest, hrest⟩ := packet_header_shape { r with timestamp := none }
    exact ⟨rest, hrest⟩

/-- C6 (amended): for every non-null and nonzero illuminance input, prefix
selection happens on the raw value: below 1000 the field is built under the
primary prefix "L" from the raw value, at or above 1000 under the alternate
prefix "l" from the raw value minus 1000; illuminance 1500 renders "l500"
(and 999 renders "L999").  (Input 0, though non-null and below 1000, produces
no field at all: see the counterexample.) -/
theorem C6_illuminance_selection (st : CWOP) (ts : Option PyDateTime) (now : PyDateTime)
    (w wd g t h p r1 r24 rd s : Option PyNum) (c : Option String) (x : PyNum)
    (hx : x.toQ ≠ 0) :
    ((st.prepare_report ts now w wd g t h p r1 r24 rd s (some x) c).illuminance
      = some (CWOPValue.make
          (some (if x.lt (.int 1000) then x else x.sub (.int 1000)))
          none 3 false false (if x.lt (.int 1000) then "L" else "l")))
    ∧ (((CWOP.make "X" (91 / 2) (-12233 / 100) none).prepare_report none ⟨1, 2, 3⟩ none
        none none none none none none none none none (some (.int 1500))
        none).illuminance.map CWOPValue.toStr = some "l500")
    ∧ (((CWOP.make "X" (91 / 2) (-12233 / 100) none).prepare_report none ⟨1, 2, 3⟩ none
        none none none none none none none none none (some (.int 999))
        none).illuminance.map CWOPValue.toStr = some "L999") := by
  have htr : x.truthy = true := by
    simp [PyNum.truthy, hx]
  refine ⟨?_, by decide, by decide⟩
  show (if x.truthy = true then
      some (CWOPValue.make (some (if x.lt (.int 1000) then x else x.sub (.int 1000)))
        none 3 false false (if x.lt (.int 1000) then "L" else "l"))
    else none) = _
  rw [if_pos htr]

/-- C6 (counterexample): illuminance 0 is non-null and below 1000, yet the
report stores no illuminance field at all -- the truthiness guard turns the
legitimate zero reading into an absent field instead of an "L"-prefixed
encoding of 0. -/
theorem C6_counterexample :
    ((CWOP.make "X" (91 / 2) (-12233 / 100) none).prepare_report none ⟨1, 2, 3⟩ none none
        none none none none none none none none (some (.int 0)) none).illuminance
      = none := by
  decide

/-- C6 witness: the amended selection rule applied at the concrete raw
illuminance 1500. -/
theorem C6_witness :
    ((CWOP.make "X" (91 / 2) (-12233 / 100) none).prepare_report none ⟨1, 2, 3⟩ none none
        none none none none none none none none (some (.int 1500)) none).illuminance
      = some (CWOPValue.make
          (some (if (PyNum.int 1500).lt (.int 1000) then PyNum.int 1500
                 else (PyNum.int 1500).sub (.int 1000)))
          none 3 false false (if (PyNum.int 1500).lt (.int 1000) then "L" else "l")) :=
  (C6_illuminance_selection (CWOP.make "X" (91 / 2) (-12233 / 100) none) none ⟨1, 2, 3⟩
    none none none none none none none none none none none (.int 1500) (by decide)).1

/-- C10: a reading of exactly zero is conflated with an absent value at the
truthiness-guarded boundaries: prepare_report with illuminance 0 (int or
float) builds the identical report to passing no illuminance at all, and
constructing the station with altitude 0 stores no altitude, so the packet
carries no "/A=" token -- exactly as if no value had been passed. -/
theorem C10_zero_conflation (st : CWOP) (ts : Option PyDateTime) (now : PyDateTime)
    (w wd g t h p r1 r24 rd s : Option PyNum) (c : Option String) :
    (st.prepare_report ts now w wd g t h p r1 r24 rd s (some (.int 0)) c
      = st.prepare_report ts now w wd g t h p r1 r24 rd s none c)
    ∧ (st.prepare_report ts now w wd g t h p r1 r24 rd s (some (.float 0)) c
      = st.prepare_report ts now w wd g t h p r1 r24 rd s none c)
    ∧ (∀ (d : String) (la lo : ℚ),
        CWOP.make d la lo (some (.int 0)) = CWOP.make d la lo none)
    ∧ ((CWOP.make "X" (91 / 2) (-12233 / 100) (some (.int 0))).altitude = none)
    ∧ (¬ ("/A=".data <:+:
        ((CWOP.make "X" (91 / 2) (-12233 / 100) (some (.int 0))).prepare_report none
          ⟨1, 2, 3⟩ none none none none none none none none none none none
          none).to_cwop_packet.data)) := by
  refine ⟨rfl, rfl, fun d la lo => rfl, by decide, by decide⟩

end CwopSender
